import Mathlib

/-
Verification of the snipe static-analysis core: a shallow embedding of the
symbol/reference data model (backend/parser/symbol_extractor.py), the buffer
parser dispatch (backend/parser/buffer_parser.py), the diagnostic checkers
(backend/analyzer/bounds_checker.py, signature_checker.py, format_checker.py,
undefined_checker.py, type_checker.py) and the deduplication step of the
analyze request handler (backend/server.py), together with theorems settling
the specification's claims about them.

Python dictionaries are modelled as association lists where insertion
prepends and lookup takes the first (that is, most recent) binding, which
realises the overwrite semantics of dict assignment; Python string
truthiness ("x or y") is modelled by testing for the empty string; Python
`str.strip()` by whitespace trimming; `None` by `Option.none`. String
scanning helpers are written over character lists so that every definition
reduces inside the kernel.
-/

namespace Snipe

/-- Parameter record of a function Symbol: symbol_extractor.py stores
dicts with keys name, type, has_default. -/
structure Param where
  name : String := ""
  type : Option String := none
  has_default : Bool := false
  deriving Repr, DecidableEq

/-- Symbol dataclass of symbol_extractor.py (declaration record). The
`references` bookkeeping list, unused by every modelled checker, is omitted. -/
structure Symbol where
  name : String
  kind : String
  type : Option String := none
  file_path : String := ""
  line : Nat := 0
  scope : String := ""
  array_size : Option Int := none
  params : List Param := []
  return_type : Option String := none
  is_variadic : Bool := false
  is_extern : Bool := false
  members : List (String × String) := []
  deriving Repr, DecidableEq

/-- Reference dataclass of symbol_extractor.py (use-site record). -/
structure Reference where
  name : String
  kind : String
  inferred_type : Option String := none
  line : Nat := 0
  index_value : Option Int := none
  arg_count : Option Nat := none
  rhs_name : Option String := none
  format_specifiers : Option Nat := none
  format_string : Option String := none
  imported_names : Option (List String) := none
  module_name : Option String := none
  member_name : Option String := none
  deriving Repr, DecidableEq

/-- Diagnostic dataclass of type_checker.py. -/
structure Diagnostic where
  file : String
  line : Nat
  severity : String
  message : String
  code : String := ""
  deriving Repr, DecidableEq

/-- Python `a or b` on strings: the empty string is falsey. -/
def pyOr (a b : String) : String := if a = "" then b else a

/-- Python `d.get(k) or ""` style reading of an optional string. -/
def optStr (o : Option String) : String := o.getD ""

/-- Lookup in a Python dict modelled as an association list with the most
recent binding first. -/
def dget {α : Type} (m : List (String × α)) (k : String) : Option α :=
  (m.find? (fun p => p.1 == k)).map (fun p => p.2)

/-- Python `s.endswith(suffix)`, computed on the character lists (the
kernel-reducible counterpart of String.endsWith). -/
def strEndsWith (s suffix : String) : Bool := suffix.data.isSuffixOf s.data

/-- Python `s.startswith(prefixStr)`, computed on the character lists. -/
def strStartsWith (s prefixStr : String) : Bool := prefixStr.data.isPrefixOf s.data

/-- Python `c in s` for a character, computed on the character list. -/
def containsChar (s : String) (c : Char) : Bool := s.data.contains c

/-- Python `s.strip()`: drop leading and trailing whitespace, computed on
the character list. -/
def trimChars (s : String) : String :=
  String.mk (((s.data.dropWhile Char.isWhitespace).reverse.dropWhile
    Char.isWhitespace).reverse)

/-- Apply a character map to a string, computed on the character list. -/
def mapChars (f : Char → Char) (s : String) : String := String.mk (s.data.map f)

/-- The `replace("\\", "/")` path normalisation of _is_same_file. -/
def normSlash (s : String) : String :=
  mapChars (fun c => if c = '\\' then '/' else c) s

/-- _is_same_file of bounds_checker.py / type_checker.py: the repo path names
the same file as the buffer path (exactly, or as a path suffix). -/
def isSameFile (currentFile repoFilePath : String) : Bool :=
  if repoFilePath = "" then false
  else
    let c := normSlash currentFile
    let r := normSlash repoFilePath
    c == r || strEndsWith c ("/" ++ r)

/-- Index of the last occurrence of a character in a list, if any. -/
def lastIndexOf (c : Char) : List Char → Option Nat
  | [] => none
  | a :: rest =>
    match lastIndexOf c rest with
    | some i => some (i + 1)
    | none => if a = c then some 0 else none

/-- Split a character list at every slash (Python `p.split("/")`). -/
def splitOnSlashAux : List Char → List Char → List (List Char)
  | [], acc => [acc.reverse]
  | c :: rest, acc =>
    if c = '/' then acc.reverse :: splitOnSlashAux rest []
    else splitOnSlashAux rest (c :: acc)

/-- Python `pathlib.Path(p).suffix`: the extension (with its dot) of the last
path component, empty when the last dot is leading or trailing. -/
def pathSuffix (p : String) : String :=
  let cs := (splitOnSlashAux (normSlash p).data []).getLastD []
  match lastIndexOf '.' cs with
  | none => ""
  | some i => if 0 < i && i + 1 < cs.length then String.mk (cs.drop i) else ""

/-- _get_language_from_path (type_checker.py, undefined_checker.py) and
get_language_from_path (buffer_parser.py): classify a file by its lowercased
extension into the "c" or "python" bucket. -/
def getLanguageFromPath (p : String) : Option String :=
  let ext := mapChars Char.toLower (pathSuffix p)
  if ext == ".c" || ext == ".h" then some "c"
  else if ext == ".py" then some "python"
  else none

/-- A resolved array definition as the bounds checker records it: static
size with the declaring file and line. -/
structure ArrayDef where
  size : Int
  dfile : String
  dline : Nat
  deriving Repr, DecidableEq

/-- The repo-symbol stage of the size_by_name / def_file / def_line tables
of check_array_bounds: every repo symbol with a static array size and from
a file other than the buffer, later entries overwriting. -/
def repoSizeMap (repoSymbols : List Symbol) (currentFile : String) :
    List (String × ArrayDef) :=
  repoSymbols.foldl (fun m s =>
    match s.array_size with
    | none => m
    | some sz =>
      if isSameFile currentFile s.file_path then m
      else (s.name, ⟨sz, s.file_path, s.line⟩) :: m) []

/-- The complete size table of check_array_bounds: the repo stage first,
then buffer symbols only for names not already present. -/
def sizeByName (repoSymbols bufferSymbols : List Symbol) (currentFile : String) :
    List (String × ArrayDef) :=
  bufferSymbols.foldl (fun m s =>
    match s.array_size with
    | none => m
    | some sz =>
      if (dget m s.name).isSome then m
      else (s.name, ⟨sz, pyOr s.file_path currentFile, s.line⟩) :: m)
    (repoSizeMap repoSymbols currentFile)

/-- Message text of a SNIPE_ARRAY_BOUNDS diagnostic of check_array_bounds. -/
def boundsMessage (idx size : Int) (name dfile : String) (dline : Nat) : String :=
  "Index " ++ toString idx ++ " exceeds declared size " ++ toString size ++
    " for '" ++ name ++ "' (declared in " ++ dfile ++ ":" ++ toString dline ++ ")."

/-- Loop body of check_array_bounds: the diagnostic (if any) one reference
contributes, given the resolved size table. -/
def boundsDiagFor (m : List (String × ArrayDef)) (currentFile : String)
    (ref : Reference) : Option Diagnostic :=
  if ref.kind ≠ "array_access" then none
  else
    match ref.index_value with
    | none => none
    | some i =>
      match dget m ref.name with
      | none => none
      | some ad =>
        if i < 0 ∨ ad.size ≤ i then
          some { file := currentFile, line := ref.line, severity := "ERROR",
                 code := "SNIPE_ARRAY_BOUNDS",
                 message := boundsMessage i ad.size ref.name ad.dfile ad.dline }
        else none

/-- check_array_bounds of bounds_checker.py. -/
def checkArrayBounds (bufferRefs : List Reference) (bufferSymbols : List Symbol)
    (repoSymbols : List Symbol) (currentFile : String) : List Diagnostic :=
  bufferRefs.filterMap (boundsDiagFor (sizeByName repoSymbols bufferSymbols currentFile) currentFile)

/-- The funcs table of check_function_signatures: repo function symbols by
name, a later entry winning only when its file is the current file or the
name is new. -/
def funcsByName (repoSymbols : List Symbol) (currentFile : String) :
    List (String × Symbol) :=
  repoSymbols.foldl (fun m s =>
    if s.kind ≠ "function" then m
    else if s.name = "" then m
    else if (dget m s.name).isNone || s.file_path == currentFile then (s.name, s) :: m
    else m) []

/-- regular_params of check_function_signatures: parameters whose name does
not start with the pack marker "*". -/
def regularParams (ps : List Param) : List Param :=
  ps.filter (fun p => !strStartsWith p.name "*")

/-- min_args of check_function_signatures: regular parameters without a
default. -/
def minArgsOf (ps : List Param) : Nat :=
  (regularParams ps).countP (fun p => ¬ p.has_default)

/-- The expectation string of the signature-drift message. -/
def expectedArgsStr (isVariadic : Bool) (minA maxA : Nat) : String :=
  if isVariadic then "at least " ++ toString minA
  else if minA = maxA then toString minA
  else toString minA ++ " to " ++ toString maxA

/-- Message text of a SNIPE_SIGNATURE_DRIFT diagnostic. -/
def signatureMessage (name expected : String) (provided : Nat) (dfile : String)
    (dline : Nat) : String :=
  "Function '" ++ name ++ "' expects " ++ expected ++ " argument(s) but " ++
    toString provided ++ " provided (see " ++ dfile ++ ":" ++ toString dline ++ ")."

/-- Loop body of check_function_signatures: the diagnostic (if any) one
reference contributes. A variadic function has no upper bound (max_args is
infinite in the source); otherwise the bound is the regular parameter count. -/
def sigDiagFor (funcs : List (String × Symbol)) (currentFile : String)
    (ref : Reference) : Option Diagnostic :=
  if ref.kind ≠ "call" then none
  else
    match ref.arg_count with
    | none => none
    | some n =>
      match dget funcs ref.name with
      | none => none
      | some f =>
        let minA := minArgsOf f.params
        let maxA := (regularParams f.params).length
        if n < minA ∨ (¬ f.is_variadic ∧ maxA < n) then
          some { file := currentFile, line := ref.line, severity := "ERROR",
                 code := "SNIPE_SIGNATURE_DRIFT",
                 message := signatureMessage ref.name
                   (expectedArgsStr f.is_variadic minA maxA) n f.file_path f.line }
        else none

/-- check_function_signatures of signature_checker.py. -/
def checkFunctionSignatures (bufferRefs : List Reference)
    (repoSymbols : List Symbol) (currentFile : String) : List Diagnostic :=
  bufferRefs.filterMap (sigDiagFor (funcsByName repoSymbols currentFile) currentFile)

/-- Message text of a SNIPE_FORMAT_STRING diagnostic. -/
def formatMessage (name : String) (specs args : Nat) : String :=
  "Format string in '" ++ name ++ "' has " ++ toString specs ++
    " specifier(s) but " ++ toString args ++ " argument(s) provided."

/-- Loop body of check_format_strings: the diagnostic (if any) one
format_call reference contributes. -/
def formatDiagFor (currentFile : String) (ref : Reference) : Option Diagnostic :=
  if ref.kind ≠ "format_call" then none
  else
    match ref.format_specifiers, ref.arg_count with
    | some s, some a =>
      if s ≠ a then
        some { file := currentFile, line := ref.line, severity := "ERROR",
               code := "SNIPE_FORMAT_STRING", message := formatMessage ref.name s a }
      else none
    | _, _ => none

/-- check_format_strings of format_checker.py: runs only on .c/.h buffers. -/
def checkFormatStrings (bufferRefs : List Reference) (bufferSymbols : List Symbol)
    (repoSymbols : List Symbol) (currentFile : String) : List Diagnostic :=
  if !(strEndsWith currentFile ".c" || strEndsWith currentFile ".h") then []
  else bufferRefs.filterMap (formatDiagFor currentFile)

/-- The conversion characters of the format-specifier regex
%(?!%)[diouxXeEfFgGaAcspnl*] in extract_references_from_source. -/
def convChars : List Char :=
  ['d', 'i', 'o', 'u', 'x', 'X', 'e', 'E', 'f', 'F', 'g', 'G', 'a', 'A', 'c',
   's', 'p', 'n', 'l', '*']

/-- Whether a character is a printf conversion character of the regex. -/
def isConvChar (c : Char) : Bool := convChars.contains c

/-- The specifier count computed by re.findall with the regex
%(?!%)[diouxXeEfFgGaAcspnl*]: scan left to right; a percent not followed by
a percent and followed by a conversion character is one match and the scan
resumes after it, otherwise the scan advances one character. -/
def countSpecifiers : List Char → Nat
  | [] => 0
  | [_] => 0
  | a :: b :: rest2 =>
    if a = '%' && b ≠ '%' && isConvChar b then countSpecifiers rest2 + 1
    else countSpecifiers (b :: rest2)

/-- Specifier count as the specification words it: the number of positions
holding a percent followed by a conversion character, occurrences of a
doubled percent excluded. Stated as a sliding window over adjacent pairs. -/
def specSpecifierCount : List Char → Nat
  | [] => 0
  | [_] => 0
  | a :: b :: rest2 =>
    (if a = '%' && b ≠ '%' && isConvChar b then 1 else 0) + specSpecifierCount (b :: rest2)

/-- The printf-family whitelist of extract_references_from_source. -/
def printfFamily : List String :=
  ["printf", "fprintf", "sprintf", "snprintf", "scanf", "fscanf", "sscanf"]

/-- The per-callee position of the format-string argument. -/
def fmtArgIndex (name : String) : Nat :=
  if name = "fprintf" || name = "fscanf" || name = "sprintf" || name = "sscanf" then 1
  else if name = "snprintf" then 2
  else 0

/-- A positional call argument as the extractor's walker sees it: a string
literal (carrying its text with the surrounding quotes already stripped) or
any other expression. -/
inductive CArg where
  | strLit (s : String)
  | other
  deriving Repr, DecidableEq

/-- The format_call reference the C call walker of
extract_references_from_source emits for a printf-family call (in addition
to the plain call reference): none when the callee is not whitelisted, has
no arguments, or the argument at the format position is not a string
literal. arg_count is the total argument count minus the format position
minus one; format_specifiers is the regex count over the literal text. -/
def formatCallRef (name : String) (args : List CArg) (line : Nat) : Option Reference :=
  if printfFamily.contains name && !args.isEmpty then
    let idx := fmtArgIndex name
    match args.get? idx with
    | some (CArg.strLit fmt) =>
      some { name := name, kind := "format_call", line := line,
             arg_count := some (args.length - idx - 1),
             format_specifiers := some (countSpecifiers fmt.toList),
             format_string := some fmt }
    | _ => none
  else none

/-- PYTHON_BUILTINS of undefined_checker.py. -/
def pythonBuiltins : List String := [
  "print", "len", "range", "int", "str", "float", "bool", "list", "dict", "tuple", "set",
  "frozenset", "type", "isinstance", "issubclass", "hasattr", "getattr", "setattr", "delattr",
  "property", "staticmethod", "classmethod", "super", "object", "None", "True", "False", "abs",
  "all", "any", "ascii", "bin", "breakpoint", "bytearray", "bytes", "callable", "chr",
  "compile", "complex", "copyright", "credits", "delattr", "dir", "divmod", "enumerate", "eval",
  "exec", "exit", "filter", "format", "globals", "hash", "help", "hex", "id", "input", "iter",
  "license", "locals", "map", "max", "memoryview", "min", "next", "oct", "open", "ord", "pow",
  "quit", "repr", "reversed", "round", "slice", "sorted", "sum", "vars", "zip", "__import__",
  "NotImplemented", "Ellipsis", "__name__", "__file__", "__doc__", "__package__", "__spec__",
  "__loader__", "__builtins__", "Exception", "BaseException", "ValueError", "TypeError",
  "KeyError", "IndexError", "AttributeError", "ImportError", "ModuleNotFoundError",
  "FileNotFoundError", "OSError", "IOError", "RuntimeError", "StopIteration", "GeneratorExit",
  "SystemExit", "KeyboardInterrupt", "ArithmeticError", "ZeroDivisionError", "OverflowError",
  "FloatingPointError", "LookupError", "NameError", "UnboundLocalError", "SyntaxError",
  "IndentationError", "TabError", "SystemError", "UnicodeError", "UnicodeDecodeError",
  "UnicodeEncodeError", "UnicodeTranslateError", "Warning", "DeprecationWarning",
  "PendingDeprecationWarning", "RuntimeWarning", "SyntaxWarning", "ResourceWarning",
  "FutureWarning", "ImportWarning", "UnicodeWarning", "BytesWarning", "UserWarning",
  "AssertionError", "AssertionError", "NotImplementedError", "RecursionError",
  "StopAsyncIteration", "ConnectionError", "BrokenPipeError", "ConnectionAbortedError",
  "ConnectionRefusedError", "ConnectionResetError", "BlockingIOError", "ChildProcessError",
  "FileExistsError", "InterruptedError", "IsADirectoryError", "NotADirectoryError",
  "PermissionError", "ProcessLookupError", "TimeoutError", "dataclass", "field",
  "abstractmethod", "override", "Optional", "Union", "List", "Dict", "Tuple", "Set", "Any",
  "Callable", "Iterator", "Generator", "Iterable", "Sequence", "Mapping", "MutableMapping",
  "TypeVar", "Generic", "Protocol"]

/-- PYTHON_COMMON_GLOBALS of undefined_checker.py. -/
def pythonCommonGlobals : List String := [
  "self", "cls", "__name__", "__file__", "__doc__", "__all__", "__version__", "__author__",
  "__package__"]

/-- C_STDLIB_FUNCTIONS of undefined_checker.py. -/
def cStdlibFunctions : List String := [
  "printf", "fprintf", "sprintf", "snprintf", "scanf", "fscanf", "sscanf", "vsprintf",
  "vsnprintf", "vscanf", "vfscanf", "vsscanf", "fopen", "fclose", "fread", "fwrite", "fgets",
  "fputs", "feof", "fseek", "ftell", "perror", "puts", "getchar", "putchar", "getc", "putc",
  "fgetc", "fputc", "gets", "gets_s", "rewind", "freopen", "tmpfile", "tmpnam", "tempnam",
  "setbuf", "setvbuf", "ungetc", "fflush", "ferror", "clearerr", "malloc", "calloc", "realloc",
  "free", "alloca", "exit", "abort", "atexit", "_exit", "at_quick_exit", "quick_exit", "system",
  "getenv", "secure_getenv", "abs", "labs", "llabs", "div", "ldiv", "lldiv", "rand", "srand",
  "random", "srandom", "drand48", "srand48", "atoi", "atol", "atoll", "atof", "strtol",
  "strtoul", "strtoll", "strtoull", "strtod", "strtof", "strtold", "qsort", "bsearch", "memcpy",
  "memset", "memmove", "memcmp", "memchr", "strcpy", "strncpy", "strcat", "strncat", "strcmp",
  "strncmp", "strlen", "strstr", "strchr", "strrchr", "strtok", "strtok_r", "strdup", "strndup",
  "stpcpy", "strlcpy", "strlcat", "bcopy", "bzero", "isalpha", "isdigit", "isalnum", "isspace",
  "isupper", "islower", "isprint", "iscntrl", "ispunct", "isxdigit", "isgraph", "toupper",
  "tolower", "time", "clock", "difftime", "mktime", "ctime", "ctime_r", "asctime", "asctime_r",
  "gmtime", "gmtime_r", "localtime", "localtime_r", "strftime", "fork", "vfork", "execl",
  "execle", "execlp", "execv", "execvp", "execve", "popen", "pclose", "wait", "waitpid", "pipe",
  "dup", "dup2", "signal", "sigaction", "raise", "kill", "open", "close", "read", "write",
  "lseek", "ioctl", "select", "poll", "getlogin", "getpwuid", "getuid", "geteuid", "sleep",
  "usleep", "nanosleep", "mkstemp", "mkdtemp", "va_start", "va_end", "va_arg", "va_copy",
  "assert", "sizeof", "offsetof", "NULL", "EOF", "main"]

/-- The imported_names accumulation of check_undefined_symbols: names of
every import reference with a truthy (non-empty) name list. -/
def importedNames (bufferRefs : List Reference) : List String :=
  bufferRefs.foldl (fun acc r =>
    if r.kind == "import" then
      match r.imported_names with
      | some l => if l.isEmpty then acc else acc ++ l
      | none => acc
    else acc) []

/-- The all_known base set of check_undefined_symbols before the
language-specific builtins are added: buffer symbol names, repo symbol
names (names of every repo symbol with a truthy name, with no language
filter) and imported names. -/
def knownNames (bufferSymbols repoSymbols : List Symbol)
    (bufferRefs : List Reference) : List String :=
  bufferSymbols.map (fun s => s.name)
    ++ repoSymbols.filterMap (fun s => if s.name = "" then none else some s.name)
    ++ importedNames bufferRefs

/-- The star-import test of check_undefined_symbols: some import reference
with a truthy name list containing "*". -/
def hasStarImport (bufferRefs : List Reference) : Bool :=
  bufferRefs.any (fun r =>
    r.kind == "import" &&
      (match r.imported_names with
       | some l => !l.isEmpty && l.contains "*"
       | none => false))

/-- Message of an undefined read (Python branch). -/
def undefinedReadMessage (n : String) : String :=
  "'" ++ n ++ "' is not defined in this file, the repository, or Python builtins."

/-- Message of an undefined call (Python branch). -/
def undefinedCallPyMessage (n : String) : String :=
  "Function '" ++ n ++ "' is not defined in this file, the repository, or Python builtins."

/-- Message of an undefined call (C branch). -/
def undefinedCallCMessage (n : String) : String :=
  "Function '" ++ n ++ "' is not defined in this file, the repository, or the C standard library."

/-- check_undefined_symbols of undefined_checker.py. -/
def checkUndefinedSymbols (bufferRefs : List Reference) (bufferSymbols : List Symbol)
    (repoSymbols : List Symbol) (currentFile : String) : List Diagnostic :=
  match getLanguageFromPath currentFile with
  | none => []
  | some lang =>
    let baseKnown := knownNames bufferSymbols repoSymbols bufferRefs
    if lang = "python" then
      let allKnown := baseKnown ++ pythonBuiltins ++ pythonCommonGlobals
      if hasStarImport bufferRefs then []
      else
        (bufferRefs.filterMap (fun r =>
          if r.kind == "read" && !allKnown.contains r.name then
            some { file := currentFile, line := r.line, severity := "WARNING",
                   code := "SNIPE_UNDEFINED_SYMBOL",
                   message := undefinedReadMessage r.name }
          else none))
        ++ (bufferRefs.filterMap (fun r =>
          if r.kind == "call" && !containsChar r.name '.' && !allKnown.contains r.name then
            some { file := currentFile, line := r.line, severity := "WARNING",
                   code := "SNIPE_UNDEFINED_SYMBOL",
                   message := undefinedCallPyMessage r.name }
          else none))
    else if lang = "c" then
      let allKnown := baseKnown ++ cStdlibFunctions
      bufferRefs.filterMap (fun r =>
        if r.kind == "call" && !allKnown.contains r.name then
          some { file := currentFile, line := r.line, severity := "WARNING",
                 code := "SNIPE_UNDEFINED_SYMBOL",
                 message := undefinedCallCMessage r.name }
        else none)
    else []

/-- Raw declared-type string of a symbol as the type checker reads it:
`s.get("type") or s.get("kind") or ""` before any strip. -/
def symTypeRaw (s : Symbol) : String := pyOr (optStr s.type) s.kind

/-- The local_types table of check_type_mismatch: buffer symbol types (last
wins), then buffer symbol kinds for names not already present. -/
def localTypes (bufferSymbols : List Symbol) : List (String × String) :=
  let m1 := bufferSymbols.foldl (fun m s =>
    match s.type with
    | some t => (s.name, t) :: m
    | none => m) []
  bufferSymbols.foldl (fun m s =>
    if (dget m s.name).isSome then m else (s.name, s.kind) :: m) m1

/-- The repo_by_name table of check_type_mismatch: same-language repo
symbols from other files, a non-extern (definition) entry overriding an
extern one for the same name. -/
def repoByName (repoSymbols : List Symbol) (currentFile : String) :
    List (String × Symbol) :=
  repoSymbols.foldl (fun m s =>
    if isSameFile currentFile s.file_path then m
    else if getLanguageFromPath s.file_path ≠ getLanguageFromPath currentFile then m
    else if s.name = "" then m
    else
      match dget m s.name with
      | none => (s.name, s) :: m
      | some ex => if ex.is_extern && !s.is_extern then (s.name, s) :: m else m) []

/-- The buffer_symbols_by_name table of check_type_mismatch (last wins). -/
def bufferSymbolsByName (bufferSymbols : List Symbol) : List (String × Symbol) :=
  bufferSymbols.foldl (fun m s => (s.name, s) :: m) []

/-- Message of a declaration-level SNIPE_TYPE_MISMATCH diagnostic. -/
def declMismatchMessage (name repoType rfile : String) (rline : Nat)
    (bufType : String) : String :=
  "'" ++ name ++ "' is declared as " ++ repoType ++ " in " ++ rfile ++ ":" ++
    toString rline ++ " but declared as " ++ bufType ++ " here."

/-- Message of an extern size-overclaim SNIPE_ARRAY_BOUNDS diagnostic. -/
def sizeOverclaimMessage (name : String) (bufSize repoSize : Int)
    (rfile : String) (rline : Nat) : String :=
  "'" ++ name ++ "' declares size " ++ toString bufSize ++
    " but actual size is " ++ toString repoSize ++ " (in " ++ rfile ++ ":" ++
    toString rline ++ ")."

/-- Pass 1 of check_type_mismatch, per buffer symbol: only extern buffer
declarations are compared against the canonical repo entry; a type
difference yields a SNIPE_TYPE_MISMATCH, and an extern array size larger
than the repo size yields a SNIPE_ARRAY_BOUNDS, in that order. -/
def declDiagsFor (rbn : List (String × Symbol)) (currentFile : String)
    (sym : Symbol) : List Diagnostic :=
  if !sym.is_extern then []
  else
    match dget rbn sym.name with
    | none => []
    | some rd =>
      let repoType := trimChars (symTypeRaw rd)
      let bufType := trimChars (symTypeRaw sym)
      let typeDiag : List Diagnostic :=
        if bufType ≠ "" && repoType ≠ "" && bufType ≠ repoType then
          [{ file := currentFile, line := sym.line, severity := "ERROR",
             code := "SNIPE_TYPE_MISMATCH",
             message := declMismatchMessage sym.name repoType rd.file_path rd.line bufType }]
        else []
      let sizeDiag : List Diagnostic :=
        match sym.array_size, rd.array_size with
        | some b, some r =>
          if r < b then
            [{ file := currentFile, line := sym.line, severity := "ERROR",
               code := "SNIPE_ARRAY_BOUNDS",
               message := sizeOverclaimMessage sym.name b r rd.file_path rd.line }]
          else []
        | _, _ => []
      typeDiag ++ sizeDiag

/-- The declaration_mismatch_names set collected by pass 1: names of extern
buffer symbols whose type differs from the canonical repo type. -/
def declMismatchNames (rbn : List (String × Symbol)) (bufferSymbols : List Symbol) :
    List String :=
  bufferSymbols.filterMap (fun sym =>
    if !sym.is_extern then none
    else
      match dget rbn sym.name with
      | none => none
      | some rd =>
        let repoType := trimChars (symTypeRaw rd)
        let bufType := trimChars (symTypeRaw sym)
        if bufType ≠ "" && repoType ≠ "" && bufType ≠ repoType then some sym.name
        else none)

/-- Python `x or y` on an optional string where `x` itself is optional and
the empty string is falsey (`ref.inferred_type or fallback`). -/
def pyOrOpt (a : Option String) (b : Option String) : Option String :=
  match a with
  | some t => if t = "" then b else some t
  | none => b

/-- Message of a reference-level SNIPE_TYPE_MISMATCH diagnostic (pass 3). -/
def refMismatchMessage (name repoType rfile : String) (rline : Nat)
    (refType : String) : String :=
  "'" ++ name ++ "' is declared as " ++ repoType ++ " in " ++ rfile ++ ":" ++
    toString rline ++ " but used as " ++ refType ++ " here."

/-- Message of an array-element-write SNIPE_TYPE_MISMATCH diagnostic (pass 2). -/
def arrayWriteMessage (rhsType name elemType elemFile : String)
    (elemLine : Nat) : String :=
  "Assigning " ++ rhsType ++ " to '" ++ name ++ "' (element type " ++ elemType ++
    " in " ++ elemFile ++ ":" ++ toString elemLine ++ ")."

/-- Pass 2 of check_type_mismatch, per reference: an array_write whose RHS
type (inferred, or looked up from the buffer when the RHS is an identifier)
differs from the element type declared in the buffer or, failing that, the
canonical repo entry. -/
def arrayWriteDiagFor (lt : List (String × String)) (sbn rbn : List (String × Symbol))
    (currentFile : String) (ref : Reference) : Option Diagnostic :=
  if ref.kind ≠ "array_write" then none
  else
    let rhsType := pyOrOpt ref.inferred_type
      (match ref.rhs_name with
       | some rn => if rn = "" then none else dget lt rn
       | none => none)
    match rhsType with
    | none => none
    | some rt =>
      if rt = "" then none
      else
        let elemInfo : Option (String × String × Nat) :=
          match dget sbn ref.name with
          | some sym =>
            match sym.type with
            | some t =>
              if t ≠ "" then some (trimChars t, currentFile, sym.line)
              else
                match dget rbn ref.name with
                | some rd => some (trimChars (symTypeRaw rd), rd.file_path, rd.line)
                | none => none
            | none =>
              match dget rbn ref.name with
              | some rd => some (trimChars (symTypeRaw rd), rd.file_path, rd.line)
              | none => none
          | none =>
            match dget rbn ref.name with
            | some rd => some (trimChars (symTypeRaw rd), rd.file_path, rd.line)
            | none => none
        match elemInfo with
        | none => none
        | some (et, ef, el) =>
          if et ≠ "" && et ≠ rt then
            some { file := currentFile, line := ref.line, severity := "ERROR",
                   code := "SNIPE_TYPE_MISMATCH",
                   message := arrayWriteMessage rt ref.name et ef el }
          else none

/-- Pass 3 of check_type_mismatch, per reference: a read or array_access of
a name with a non-extern canonical repo entry, whose buffer-side type
(inferred, or the local declaration) differs from the repo type after
stripping; names already flagged at declaration level are skipped. -/
def refDiagFor (lt : List (String × String)) (rbn : List (String × Symbol))
    (dmn : List String) (currentFile : String) (ref : Reference) : Option Diagnostic :=
  if ref.kind ≠ "read" && ref.kind ≠ "array_access" then none
  else if dmn.contains ref.name then none
  else
    match dget rbn ref.name with
    | none => none
    | some rd =>
      if rd.is_extern then none
      else
        let repoType := symTypeRaw rd
        match pyOrOpt ref.inferred_type (dget lt ref.name) with
        | none => none
        | some rt =>
          if rt ≠ "" && repoType ≠ "" && trimChars rt ≠ trimChars repoType then
            some { file := currentFile, line := ref.line, severity := "ERROR",
                   code := "SNIPE_TYPE_MISMATCH",
                   message := refMismatchMessage ref.name repoType rd.file_path rd.line rt }
          else none

/-- check_type_mismatch of type_checker.py: for a supported buffer
language, the declaration pass over buffer symbols, then the array-write
pass and the reference pass over buffer references, concatenated in
emission order. -/
def checkTypeMismatch (bufferRefs : List Reference) (bufferSymbols : List Symbol)
    (repoSymbols : List Symbol) (currentFile : String) : List Diagnostic :=
  match getLanguageFromPath currentFile with
  | none => []
  | some _ =>
    let lt := localTypes bufferSymbols
    let rbn := repoByName repoSymbols currentFile
    let dmn := declMismatchNames rbn bufferSymbols
    (bufferSymbols.flatMap (declDiagsFor rbn currentFile))
      ++ (bufferRefs.filterMap
            (arrayWriteDiagFor lt (bufferSymbolsByName bufferSymbols) rbn currentFile))
      ++ (bufferRefs.filterMap (refDiagFor lt rbn dmn currentFile))

/-- Deduplication key of the analyze handler: (file, line, code, message). -/
def diagKey (d : Diagnostic) : String × Nat × String × String :=
  (d.file, d.line, d.code, d.message)

/-- The deduplication loop of analyze (server.py): keep a diagnostic when
its key was not seen, recording seen keys. -/
def dedupAux (seen : List (String × Nat × String × String)) :
    List Diagnostic → List Diagnostic
  | [] => []
  | d :: rest =>
    if diagKey d ∈ seen then dedupAux seen rest
    else d :: dedupAux (diagKey d :: seen) rest

/-- Diagnostic deduplication of analyze, starting from an empty seen set. -/
def dedupDiagnostics (ds : List Diagnostic) : List Diagnostic := dedupAux [] ds

/-- The analyze request handler of server.py, restricted to its diagnostic
computation: the checkers run in order on the parsed buffer against the
repo symbols and the concatenated output is deduplicated. The checkers not
modelled here (shadowing, which runs between the undefined and format
checkers, and the unused-extern, dead-import, return, unsafe-function,
assignment, argument-type and struct checkers, which run after the format
checker) enter as the opaque emission lists `shadowDiags` and
`laterDiags` at their places in the emission order. -/
def analyzeDiagnostics (bufferRefs : List Reference) (bufferSymbols : List Symbol)
    (repoSymbols : List Symbol) (currentFile : String)
    (shadowDiags laterDiags : List Diagnostic) : List Diagnostic :=
  dedupDiagnostics
    (checkTypeMismatch bufferRefs bufferSymbols repoSymbols currentFile
      ++ checkArrayBounds bufferRefs bufferSymbols repoSymbols currentFile
      ++ checkFunctionSignatures bufferRefs repoSymbols currentFile
      ++ checkUndefinedSymbols bufferRefs bufferSymbols repoSymbols currentFile
      ++ shadowDiags
      ++ checkFormatStrings bufferRefs bufferSymbols repoSymbols currentFile
      ++ laterDiags)

/-- The tree-sitter grammar environment of symbol_extractor.py, abstracted:
for each supported language, either no parser (the grammar package is
unavailable, or parsing yields no root node) or a total extraction function
from source text and file path to the walked records. -/
structure GrammarEnv where
  pySymbols : Option (String → String → List Symbol) := none
  cSymbols : Option (String → String → List Symbol) := none
  pyRefs : Option (String → String → List Reference) := none
  cRefs : Option (String → String → List Reference) := none

/-- _get_parser for symbol extraction: a parser exists only for "python"
and "c", and only when the grammar is available. -/
def getSymbolParser (env : GrammarEnv) (lang : String) :
    Option (String → String → List Symbol) :=
  if lang = "python" then env.pySymbols
  else if lang = "c" then env.cSymbols
  else none

/-- _get_parser for reference extraction. -/
def getReferenceParser (env : GrammarEnv) (lang : String) :
    Option (String → String → List Reference) :=
  if lang = "python" then env.pyRefs
  else if lang = "c" then env.cRefs
  else none

/-- The language resolution at the head of extract_symbols_from_source and
extract_references_from_source: an explicit language wins, else the file
extension decides, else the file is unsupported. -/
def resolveLanguage (filePath : String) (language : Option String) : Option String :=
  match language with
  | some l => some l
  | none => getLanguageFromPath filePath

/-- extract_symbols_from_source of symbol_extractor.py: dispatch on the
resolved language; an unsupported language, a missing grammar or a failed
parse each yield the empty symbol list. -/
def extractSymbolsFromSource (env : GrammarEnv) (source filePath : String)
    (language : Option String) : List Symbol :=
  match resolveLanguage filePath language with
  | none => []
  | some l =>
    if l = "python" ∨ l = "c" then
      match getSymbolParser env l with
      | none => []
      | some f => f source filePath
    else []

/-- extract_references_from_source of symbol_extractor.py, at the same
level of abstraction. -/
def extractReferencesFromSource (env : GrammarEnv) (source filePath : String)
    (language : Option String) : List Reference :=
  match resolveLanguage filePath language with
  | none => []
  | some l =>
    match getReferenceParser env l with
    | none => []
    | some f => f source filePath

/-- parse_unsaved_buffer of buffer_parser.py: resolve the language from the
argument or the file extension; an unsupported file yields no symbols and
no references, otherwise both extractions run on the buffer text. -/
def parseUnsavedBuffer (env : GrammarEnv) (bufferContent filePath : String)
    (language : Option String) : List Symbol × List Reference :=
  match (match language with
         | some l => some l
         | none => getLanguageFromPath filePath) with
  | none => ([], [])
  | some l =>
    (extractSymbolsFromSource env bufferContent filePath (some l),
     extractReferencesFromSource env bufferContent filePath (some l))

/-- A Python list symbol of five elements named scores, as the extractor
records it for `scores = [...]` at line 1 of app.py. -/
def scoresSymbol : Symbol :=
  { name := "scores", kind := "array", file_path := "app.py", line := 1,
    array_size := some 5 }

/-- An array_access reference scores[i] at a given line. -/
def scoresRef (ln : Nat) (i : Int) : Reference :=
  { name := "scores", kind := "array_access", line := ln, index_value := some i }

/-- The repo function Symbol for greet(name, greeting="Hello") of the
signature-drift scenario. -/
def greetSymbol : Symbol :=
  { name := "greet", kind := "function", file_path := "utils.py", line := 1,
    params := [{ name := "name", type := some "str" },
               { name := "greeting", type := some "str", has_default := true }],
    return_type := some "str" }

/-- A call reference greet(...) with n positional arguments at a line. -/
def greetCall (ln n : Nat) : Reference :=
  { name := "greet", kind := "call", line := ln, arg_count := some n }

/-- The format_call reference the extractor emits for printf("%% %d", x). -/
def pctPctRef : Reference :=
  { name := "printf", kind := "format_call", line := 7, arg_count := some 1,
    format_specifiers := some 1, format_string := some "%% %d" }

/-- A character other than a percent contributes no specifier at the head
of the scan. -/
theorem countSpecifiers_cons_ne (b : Char) (l : List Char) (hb : ¬ b = '%') :
    countSpecifiers (b :: l) = countSpecifiers l := by
  cases l with
  | nil => rfl
  | cons c r => simp [countSpecifiers, hb]

/-- The regex scan of the extractor counts exactly the positions the
specification describes: a percent followed by a conversion character,
doubled percents excluded. -/
theorem countSpecifiers_eq_specSpecifierCount (l : List Char) :
    countSpecifiers l = specSpecifierCount l := by
  induction l with
  | nil => rfl
  | cons a rest ih =>
    cases rest with
    | nil => rfl
    | cons b r2 =>
      simp only [countSpecifiers, specSpecifierCount]
      by_cases h : (a = '%' && b ≠ '%' && isConvChar b) = true
      · have hb : ¬ b = '%' := by
          simp only [Bool.and_eq_true, decide_eq_true_eq, ne_eq] at h
          exact h.1.2
        rw [if_pos h, if_pos h, ← ih, countSpecifiers_cons_ne b r2 hb]
        omega
      · rw [if_neg h, if_neg h, ih]
        omega

/-- C1. For every array known to the bounds checker under name n with
static size N, and every array_access reference named n with a literal
index i, check_array_bounds emits a SNIPE_ARRAY_BOUNDS diagnostic for that
reference iff i < 0 or i >= N: the checker is the per-reference emission
over the resolved size table (first conjunct), the per-reference emission
fires exactly on out-of-range indices (second conjunct), and for the
scores list of size 5, accesses at 0 and 4 yield nothing while 5 and 99
yield exactly one diagnostic each (third conjunct). -/
theorem claim_C1 :
    (∀ (bufferRefs : List Reference) (bufferSymbols repoSymbols : List Symbol)
      (currentFile : String),
      checkArrayBounds bufferRefs bufferSymbols repoSymbols currentFile =
        bufferRefs.filterMap
          (boundsDiagFor (sizeByName repoSymbols bufferSymbols currentFile) currentFile))
    ∧ (∀ (m : List (String × ArrayDef)) (currentFile : String) (ref : Reference)
      (i : Int) (ad : ArrayDef),
      ref.kind = "array_access" → ref.index_value = some i →
      dget m ref.name = some ad →
      ((boundsDiagFor m currentFile ref).isSome ↔ (i < 0 ∨ ad.size ≤ i)))
    ∧ checkArrayBounds
        [scoresRef 2 0, scoresRef 3 4, scoresRef 4 5, scoresRef 5 99]
        [scoresSymbol] [] "app.py" =
      [{ file := "app.py", line := 4, severity := "ERROR",
         code := "SNIPE_ARRAY_BOUNDS",
         message := "Index 5 exceeds declared size 5 for 'scores' (declared in app.py:1)." },
       { file := "app.py", line := 5, severity := "ERROR",
         code := "SNIPE_ARRAY_BOUNDS",
         message := "Index 99 exceeds declared size 5 for 'scores' (declared in app.py:1)." }] := by
  refine ⟨fun _ _ _ _ => rfl, ?_, by decide⟩
  intro m currentFile ref i ad hk hi hd
  simp only [boundsDiagFor, hk, hi, hd, ne_eq, not_true_eq_false, if_false]
  by_cases h : i < 0 ∨ ad.size ≤ i
  · simp [h]
  · simp [h]

/-- C2. check_function_signatures flags a call with known positional count
n against a repo function iff n < min_required or the function is not
variadic and n exceeds the regular parameter count: the checker is the
per-reference emission over the funcs table (first conjunct), the emission
fires exactly on that condition (second conjunct), and against
greet(name, greeting="Hello") the calls with 0, 3 and 4 arguments are each
flagged while 1 and 2 are not (third conjunct). -/
theorem claim_C2 :
    (∀ (bufferRefs : List Reference) (repoSymbols : List Symbol) (currentFile : String),
      checkFunctionSignatures bufferRefs repoSymbols currentFile =
        bufferRefs.filterMap (sigDiagFor (funcsByName repoSymbols currentFile) currentFile))
    ∧ (∀ (funcs : List (String × Symbol)) (currentFile : String) (ref : Reference)
      (n : Nat) (f : Symbol),
      ref.kind = "call" → ref.arg_count = some n → dget funcs ref.name = some f →
      ((sigDiagFor funcs currentFile ref).isSome ↔
        (n < minArgsOf f.params ∨ (¬ f.is_variadic ∧ (regularParams f.params).length < n))))
    ∧ checkFunctionSignatures
        [greetCall 2 0, greetCall 3 1, greetCall 4 2, greetCall 5 3, greetCall 6 4]
        [greetSymbol] "app.py" =
      [{ file := "app.py", line := 2, severity := "ERROR",
         code := "SNIPE_SIGNATURE_DRIFT",
         message := "Function 'greet' expects 1 to 2 argument(s) but 0 provided (see utils.py:1)." },
       { file := "app.py", line := 5, severity := "ERROR",
         code := "SNIPE_SIGNATURE_DRIFT",
         message := "Function 'greet' expects 1 to 2 argument(s) but 3 provided (see utils.py:1)." },
       { file := "app.py", line := 6, severity := "ERROR",
         code := "SNIPE_SIGNATURE_DRIFT",
         message := "Function 'greet' expects 1 to 2 argument(s) but 4 provided (see utils.py:1)." }] := by
  refine ⟨fun _ _ _ => rfl, ?_, by decide⟩
  intro funcs currentFile ref n f hk ha hd
  simp only [sigDiagFor, hk, ha, hd, ne_eq, not_true_eq_false, if_false]
  by_cases h : n < minArgsOf f.params ∨ (¬ f.is_variadic ∧ (regularParams f.params).length < n)
  · simp [h]
  · simp [h]

/-- C3. For a printf-family C call with a string-literal format argument,
the extractor's format_call reference counts as specifiers exactly the
occurrences of a percent followed by a conversion character with doubled
percents excluded, and records as arg_count the number of arguments after
the format argument (first conjunct); check_format_strings emits a
SNIPE_FORMAT_STRING diagnostic iff the two counts differ (second and third
conjuncts); and a format string holding a doubled percent and one real %d
specifier, called with one value argument, yields no diagnostic (last two
conjuncts). -/
theorem claim_C3 :
    (∀ (name : String) (args : List CArg) (ln : Nat) (ref : Reference),
      formatCallRef name args ln = some ref →
      ∃ fmt : String, ref.format_string = some fmt ∧
        ref.format_specifiers = some (specSpecifierCount fmt.toList) ∧
        ref.arg_count = some (args.length - fmtArgIndex name - 1))
    ∧ (∀ (currentFile : String) (ref : Reference) (s a : Nat),
      ref.kind = "format_call" → ref.format_specifiers = some s →
      ref.arg_count = some a →
      ((formatDiagFor currentFile ref).isSome ↔ s ≠ a))
    ∧ (∀ (bufferRefs : List Reference) (bufferSymbols repoSymbols : List Symbol)
      (currentFile : String),
      (strEndsWith currentFile ".c" || strEndsWith currentFile ".h") = true →
      checkFormatStrings bufferRefs bufferSymbols repoSymbols currentFile =
        bufferRefs.filterMap (formatDiagFor currentFile))
    ∧ formatCallRef "printf" [CArg.strLit "%% %d", CArg.other] 7 = some pctPctRef
    ∧ checkFormatStrings [pctPctRef] [] [] "test.c" = [] := by
  refine ⟨?_, ?_, ?_, by decide, by decide⟩
  · intro name args ln ref h
    simp only [formatCallRef] at h
    split at h
    · split at h
      · next fmt heq =>
        refine ⟨fmt, ?_⟩
        rw [← countSpecifiers_eq_specSpecifierCount]
        cases h
        exact ⟨rfl, rfl, rfl⟩
      · exact absurd h (by simp)
    · exact absurd h (by simp)
  · intro currentFile ref s a hk hs ha
    simp only [formatDiagFor, hk, hs, ha, ne_eq, not_true_eq_false, if_false]
    by_cases h : s = a
    · simp [h]
    · simp [h]
  · intro bufferRefs bufferSymbols repoSymbols currentFile h
    simp [checkFormatStrings, h]

/-- Every diagnostic the deduplication keeps has an unseen key and comes
from the input list. -/
theorem mem_dedupAux (d : Diagnostic) :
    ∀ (l : List Diagnostic) (seen : List (String × Nat × String × String)),
      d ∈ dedupAux seen l → diagKey d ∉ seen ∧ d ∈ l := by
  intro l
  induction l with
  | nil => intro seen h; simp [dedupAux] at h
  | cons a rest ih =>
    intro seen h
    simp only [dedupAux] at h
    split at h
    · exact ⟨(ih seen h).1, List.mem_cons_of_mem a (ih seen h).2⟩
    · next hn =>
      rcases List.mem_cons.mp h with rfl | h2
      · exact ⟨hn, List.mem_cons_self _ _⟩
      · have h3 := ih _ h2
        exact ⟨fun hs => h3.1 (List.mem_cons_of_mem _ hs), List.mem_cons_of_mem _ h3.2⟩

/-- The deduplicated list holds pairwise distinct keys. -/
theorem pairwise_dedupAux :
    ∀ (l : List Diagnostic) (seen : List (String × Nat × String × String)),
      (dedupAux seen l).Pairwise (fun a b => diagKey a ≠ diagKey b) := by
  intro l
  induction l with
  | nil => intro seen; simp [dedupAux]
  | cons a rest ih =>
    intro seen
    simp only [dedupAux]
    split
    · exact ih seen
    · refine List.Pairwise.cons ?_ (ih _)
      intro x hx he
      exact (mem_dedupAux x rest _ hx).1 (by simp [← he])

/-- The deduplicated list is a sublist of the input (emission order kept). -/
theorem sublist_dedupAux :
    ∀ (l : List Diagnostic) (seen : List (String × Nat × String × String)),
      (dedupAux seen l).Sublist l := by
  intro l
  induction l with
  | nil => intro seen; simp [dedupAux]
  | cons a rest ih =>
    intro seen
    simp only [dedupAux]
    split
    · exact (ih seen).cons a
    · exact (ih _).cons₂ a

/-- For a key not yet seen, the first kept diagnostic with that key is the
first emitted diagnostic with that key. -/
theorem find?_dedupAux (k : String × Nat × String × String) :
    ∀ (l : List Diagnostic) (seen : List (String × Nat × String × String)),
      k ∉ seen →
      (dedupAux seen l).find? (fun d => decide (diagKey d = k)) =
        l.find? (fun d => decide (diagKey d = k)) := by
  intro l
  induction l with
  | nil => intro seen _; rfl
  | cons a rest ih =>
    intro seen hk
    simp only [dedupAux]
    split
    · next hs =>
      have hne : ¬ (diagKey a = k) := fun e => hk (e ▸ hs)
      rw [ih seen hk, List.find?_cons_of_neg _ (by simpa using hne)]
    · by_cases he : diagKey a = k
      · rw [List.find?_cons_of_pos _ (by simpa using he),
          List.find?_cons_of_pos _ (by simpa using he)]
      · rw [List.find?_cons_of_neg _ (by simpa using he),
          List.find?_cons_of_neg _ (by simpa using he)]
        refine ih _ ?_
        intro hmem
        rcases List.mem_cons.mp hmem with h1 | h1
        · exact he h1.symm
        · exact hk h1

/-- A diagnostic of the signature checker, used to exercise deduplication
on a concrete list. -/
def dupDiagA : Diagnostic :=
  { file := "app.py", line := 2, severity := "ERROR", code := "SNIPE_TYPE_MISMATCH",
    message := "'x' is declared as int in lib/models.py:4 but used as float here." }

/-- A second distinct diagnostic for the concrete deduplication check. -/
def dupDiagB : Diagnostic :=
  { file := "app.py", line := 2, severity := "ERROR", code := "SNIPE_ASSIGNMENT",
    message := "'x' is declared as int in lib/models.py:4 but used as float here." }

/-- C4. The diagnostic list analyze returns holds no two entries with the
same (file, line, code, message) key, and among duplicates the first in
checker-emission order is kept: analyze is deduplication over the
concatenated checker output (first conjunct); deduplication yields
pairwise distinct keys (second), a sublist of the emission order (third),
and preserves, for every key, the first emitted diagnostic with that key
(fourth); a concrete emission with a repeated diagnostic keeps its first
occurrence only (fifth). -/
theorem claim_C4 :
    (∀ (bufferRefs : List Reference) (bufferSymbols repoSymbols : List Symbol)
      (currentFile : String) (shadowDiags laterDiags : List Diagnostic),
      analyzeDiagnostics bufferRefs bufferSymbols repoSymbols currentFile
          shadowDiags laterDiags =
        dedupDiagnostics
          (checkTypeMismatch bufferRefs bufferSymbols repoSymbols currentFile
            ++ checkArrayBounds bufferRefs bufferSymbols repoSymbols currentFile
            ++ checkFunctionSignatures bufferRefs repoSymbols currentFile
            ++ checkUndefinedSymbols bufferRefs bufferSymbols repoSymbols currentFile
            ++ shadowDiags
            ++ checkFormatStrings bufferRefs bufferSymbols repoSymbols currentFile
            ++ laterDiags))
    ∧ (∀ ds : List Diagnostic,
      (dedupDiagnostics ds).Pairwise (fun a b => diagKey a ≠ diagKey b))
    ∧ (∀ ds : List Diagnostic, (dedupDiagnostics ds).Sublist ds)
    ∧ (∀ (ds : List Diagnostic) (k : String × Nat × String × String),
      (dedupDiagnostics ds).find? (fun d => decide (diagKey d = k)) =
        ds.find? (fun d => decide (diagKey d = k)))
    ∧ dedupDiagnostics [dupDiagA, dupDiagB, dupDiagA] = [dupDiagA, dupDiagB] := by
  refine ⟨fun _ _ _ _ _ _ => rfl, fun ds => pairwise_dedupAux ds [],
    fun ds => sublist_dedupAux ds [], fun ds k => find?_dedupAux k ds [] (by simp),
    by decide⟩

/-- The buffer-side array access of the language-isolation counterexample:
arr[5] in a Python buffer. -/
def crossAccessRef : Reference :=
  { name := "arr", kind := "array_access", line := 2, index_value := some 5 }

/-- The repo-side symbol of the counterexample: a C array arr[3] declared
in lib/data.c, the opposite language bucket from the Python buffer. -/
def crossRepoSym : Symbol :=
  { name := "arr", kind := "array", file_path := "lib/data.c", line := 1,
    array_size := some 3 }

/-- C5 counterexample. The bounds checker joins a Python buffer against a
repo Symbol from a C file: with the C symbol as the only repo entry it
emits a bounds diagnostic for the Python access, and with the C symbol
removed it emits nothing, so the diagnostic is derived from a repo Symbol
of the other language bucket. -/
theorem claim_C5_counterexample :
    getLanguageFromPath "test.py" = some "python" ∧
    getLanguageFromPath "lib/data.c" = some "c" ∧
    checkArrayBounds [crossAccessRef] [] [crossRepoSym] "test.py" =
      [{ file := "test.py", line := 2, severity := "ERROR",
         code := "SNIPE_ARRAY_BOUNDS",
         message := "Index 5 exceeds declared size 3 for 'arr' (declared in lib/data.c:1)." }] ∧
    checkArrayBounds [crossAccessRef] [] [] "test.py" = [] := by
  decide

/-- Unfolding of a dictionary lookup over a freshly inserted binding. -/
theorem dget_cons {α : Type} (k : String) (v : α) (m : List (String × α))
    (n : String) :
    dget ((k, v) :: m) n = if (k == n) = true then some v else dget m n := by
  by_cases h : (k == n) = true
  · simp [dget, List.find?_cons_of_pos, h]
  · simp only [h, if_false]
    rw [dget, List.find?_cons_of_neg _ (by simpa using h)]
    rfl

/-- C5 amended. Language isolation holds for the type checker: every repo
Symbol its repo_by_name table can resolve comes from a file in the same
language bucket as the buffer (check_array_bounds and
check_function_signatures, by contrast, apply no language filter, as the
counterexample shows). -/
theorem claim_C5 (repoSymbols : List Symbol) (currentFile : String)
    (n : String) (s : Symbol)
    (h : dget (repoByName repoSymbols currentFile) n = some s) :
    getLanguageFromPath s.file_path = getLanguageFromPath currentFile := by
  suffices hgen : ∀ (l : List Symbol) (m : List (String × Symbol)),
      (∀ (n0 : String) (s0 : Symbol), dget m n0 = some s0 →
        getLanguageFromPath s0.file_path = getLanguageFromPath currentFile) →
      ∀ (n0 : String) (s0 : Symbol),
        dget (l.foldl (fun m s =>
          if isSameFile currentFile s.file_path then m
          else if getLanguageFromPath s.file_path ≠ getLanguageFromPath currentFile then m
          else if s.name = "" then m
          else
            match dget m s.name with
            | none => (s.name, s) :: m
            | some ex => if ex.is_extern && !s.is_extern then (s.name, s) :: m else m) m) n0 =
          some s0 →
        getLanguageFromPath s0.file_path = getLanguageFromPath currentFile by
    exact hgen repoSymbols [] (by intro n0 s0 h0; simp [dget] at h0) n s h
  intro l
  induction l with
  | nil => intro m hm; exact hm
  | cons a rest ih =>
    intro m hm
    simp only [List.foldl_cons]
    apply ih
    intro n0 s0 h0
    by_cases h1 : isSameFile currentFile a.file_path = true
    · rw [if_pos h1] at h0; exact hm n0 s0 h0
    · rw [if_neg (by simpa using h1)] at h0
      by_cases h2 : getLanguageFromPath a.file_path ≠ getLanguageFromPath currentFile
      · rw [if_pos h2] at h0; exact hm n0 s0 h0
      · rw [if_neg h2] at h0
        by_cases h3 : a.name = ""
        · rw [if_pos h3] at h0; exact hm n0 s0 h0
        · rw [if_neg h3] at h0
          have hins : ∀ (m2 : List (String × Symbol)),
              m2 = (a.name, a) :: m →
              dget m2 n0 = some s0 →
              getLanguageFromPath s0.file_path = getLanguageFromPath currentFile := by
            intro m2 hm2 hd
            subst hm2
            rw [dget_cons] at hd
            by_cases h4 : (a.name == n0) = true
            · rw [if_pos h4] at hd
              cases hd
              exact not_ne_iff.mp h2
            · rw [if_neg h4] at hd
              exact hm n0 s0 hd
          cases h5 : dget m a.name with
          | none => simp only [h5] at h0; exact hins _ rfl h0
          | some ex =>
            simp only [h5] at h0
            by_cases h6 : (ex.is_extern && !a.is_extern) = true
            · rw [if_pos h6] at h0; exact hins _ rfl h0
            · rw [if_neg h6] at h0; exact hm n0 s0 h0

/-- A repo symbol from another Python file, used to discharge the
hypotheses of the amended language-isolation theorem at a concrete input. -/
def c5LookupSym : Symbol :=
  { name := "balance", kind := "variable", type := some "int",
    file_path := "lib/models.py", line := 4 }

/-- Witness for the amended C5 theorem: the type checker's table over one
same-language repo symbol resolves it, and its file is in the buffer's
language bucket. -/
theorem claim_C5_witness :
    getLanguageFromPath c5LookupSym.file_path = getLanguageFromPath "app.py" :=
  claim_C5 [c5LookupSym] "app.py" "balance" c5LookupSym (by decide)

/-- C6. When a Python buffer contains a wildcard import, the undefined
checker emits nothing at all for that buffer: no read or call reference in
it ever yields a SNIPE_UNDEFINED_SYMBOL diagnostic. -/
theorem claim_C6 (bufferRefs : List Reference) (bufferSymbols repoSymbols : List Symbol)
    (currentFile : String) (r : Reference) (l : List String)
    (hlang : getLanguageFromPath currentFile = some "python")
    (hmem : r ∈ bufferRefs) (hkind : r.kind = "import")
    (hnames : r.imported_names = some l) (hstar : "*" ∈ l) :
    checkUndefinedSymbols bufferRefs bufferSymbols repoSymbols currentFile = [] := by
  have hs : hasStarImport bufferRefs = true := by
    rw [hasStarImport, List.any_eq_true]
    refine ⟨r, hmem, ?_⟩
    rw [hkind, hnames]
    simp only [Bool.and_eq_true, beq_self_eq_true, Bool.not_eq_true, true_and]
    constructor
    · cases l with
      | nil => simp at hstar
      | cons x xs => rfl
    · exact List.elem_eq_true_of_mem hstar
  simp [checkUndefinedSymbols, hlang, hs]

/-- A wildcard import reference, as the Python import walker records
`from utils import *`. -/
def starImportRef : Reference :=
  { name := "utils", kind := "import", line := 1, imported_names := some ["*"],
    module_name := some "utils" }

/-- Witness for C6: a Python buffer holding a wildcard import and a read of
an unknown name still yields no diagnostic. -/
theorem claim_C6_witness :
    checkUndefinedSymbols
      [starImportRef, { name := "mystery", kind := "read", line := 2 }]
      [] [] "app.py" = [] :=
  claim_C6 [starImportRef, { name := "mystery", kind := "read", line := 2 }]
    [] [] "app.py" starImportRef ["*"] (by decide) (by decide) rfl rfl (by decide)

/-- A Python buffer definition balance: float for the
definition-definition direction check. -/
def c7BufferDef : Symbol :=
  { name := "balance", kind := "variable", type := some "float",
    file_path := "app.py", line := 1 }

/-- The same-named Python repo definition balance: int in another file. -/
def c7RepoDef : Symbol :=
  { name := "balance", kind := "variable", type := some "int",
    file_path := "lib/models.py", line := 4 }

/-- A read of balance in the buffer at line 3. -/
def c7ReadRef : Reference := { name := "balance", kind := "read", line := 3 }

/-- A C buffer extern declaration of limit with type int. -/
def c7ExternBuf : Symbol :=
  { name := "limit", kind := "variable", type := some "int",
    file_path := "main.c", line := 2, is_extern := true }

/-- The canonical C repo definition of limit with type long. -/
def c7RepoCanon : Symbol :=
  { name := "limit", kind := "variable", type := some "long",
    file_path := "lib/defs.c", line := 7 }

/-- Every diagnostic of the declaration pass is filed in the buffer. -/
theorem file_of_declDiagsFor (rbn : List (String × Symbol)) (cf : String)
    (sym : Symbol) (d : Diagnostic) (h : d ∈ declDiagsFor rbn cf sym) :
    d.file = cf := by
  simp only [declDiagsFor] at h
  split at h
  · simp at h
  · split at h
    · simp at h
    · rcases List.mem_append.mp h with h1 | h1
      · split at h1
        · rcases List.mem_singleton.mp h1 with rfl; rfl
        · simp at h1
      · split at h1
        · split at h1
          · rcases List.mem_singleton.mp h1 with rfl; rfl
          · simp at h1
        · simp at h1

/-- Every diagnostic of the array-write pass is filed in the buffer. -/
theorem file_of_arrayWriteDiagFor (lt : List (String × String))
    (sbn rbn : List (String × Symbol)) (cf : String) (ref : Reference)
    (d : Diagnostic) (h : arrayWriteDiagFor lt sbn rbn cf ref = some d) :
    d.file = cf := by
  simp only [arrayWriteDiagFor] at h
  repeat' split at h
  all_goals simp_all
  all_goals (rcases h with rfl; rfl)

/-- Every diagnostic of the reference pass is filed in the buffer. -/
theorem file_of_refDiagFor (lt : List (String × String))
    (rbn : List (String × Symbol)) (dmn : List String) (cf : String)
    (ref : Reference) (d : Diagnostic) (h : refDiagFor lt rbn dmn cf ref = some d) :
    d.file = cf := by
  simp only [refDiagFor] at h
  repeat' split at h
  all_goals simp_all
  all_goals (rcases h with rfl; rfl)

/-- C7. Cross-file type mismatches are flagged in the file holding the
erroneous declaration: every diagnostic of check_type_mismatch is filed in
the buffer under analysis (first conjunct); when the buffer declares an
extern whose type differs from the canonical (non-extern) repo definition,
the buffer extern is flagged at its declaration line (second conjunct);
when both sides are definitions, the buffer side is flagged at its use
site (third conjunct); the concrete extern and definition-definition
scenarios confirm both directions (last two conjuncts). -/
theorem claim_C7 :
    (∀ (bufferRefs : List Reference) (bufferSymbols repoSymbols : List Symbol)
      (currentFile : String) (d : Diagnostic),
      d ∈ checkTypeMismatch bufferRefs bufferSymbols repoSymbols currentFile →
      d.file = currentFile)
    ∧ (∀ (bufferRefs : List Reference) (bufferSymbols repoSymbols : List Symbol)
      (currentFile lang0 : String) (sym rd : Symbol),
      getLanguageFromPath currentFile = some lang0 →
      sym ∈ bufferSymbols → sym.is_extern = true →
      dget (repoByName repoSymbols currentFile) sym.name = some rd →
      rd.is_extern = false →
      trimChars (symTypeRaw sym) ≠ "" → trimChars (symTypeRaw rd) ≠ "" →
      trimChars (symTypeRaw sym) ≠ trimChars (symTypeRaw rd) →
      ∃ d ∈ checkTypeMismatch bufferRefs bufferSymbols repoSymbols currentFile,
        d.code = "SNIPE_TYPE_MISMATCH" ∧ d.file = currentFile ∧ d.line = sym.line)
    ∧ (∀ (bufferRefs : List Reference) (bufferSymbols repoSymbols : List Symbol)
      (currentFile lang0 : String) (ref : Reference) (rd : Symbol) (rt : String),
      getLanguageFromPath currentFile = some lang0 →
      ref ∈ bufferRefs → (ref.kind = "read" ∨ ref.kind = "array_access") →
      (declMismatchNames (repoByName repoSymbols currentFile) bufferSymbols).contains
        ref.name = false →
      dget (repoByName repoSymbols currentFile) ref.name = some rd →
      rd.is_extern = false →
      pyOrOpt ref.inferred_type (dget (localTypes bufferSymbols) ref.name) = some rt →
      rt ≠ "" → symTypeRaw rd ≠ "" →
      trimChars rt ≠ trimChars (symTypeRaw rd) →
      ∃ d ∈ checkTypeMismatch bufferRefs bufferSymbols repoSymbols currentFile,
        d.code = "SNIPE_TYPE_MISMATCH" ∧ d.file = currentFile ∧ d.line = ref.line)
    ∧ checkTypeMismatch [] [c7ExternBuf] [c7RepoCanon] "main.c" =
      [{ file := "main.c", line := 2, severity := "ERROR",
         code := "SNIPE_TYPE_MISMATCH",
         message := "'limit' is declared as long in lib/defs.c:7 but declared as int here." }]
    ∧ checkTypeMismatch [c7ReadRef] [c7BufferDef] [c7RepoDef] "app.py" =
      [{ file := "app.py", line := 3, severity := "ERROR",
         code := "SNIPE_TYPE_MISMATCH",
         message := "'balance' is declared as int in lib/models.py:4 but used as float here." }] := by
  refine ⟨?_, ?_, ?_, by decide, by decide⟩
  · intro bufferRefs bufferSymbols repoSymbols currentFile d hd
    simp only [checkTypeMismatch] at hd
    split at hd
    · simp at hd
    · rcases List.mem_append.mp hd with h12 | h3
      · rcases List.mem_append.mp h12 with h1 | h2
        · rcases List.mem_flatMap.mp h1 with ⟨sym, _, hm⟩
          exact file_of_declDiagsFor _ _ _ _ hm
        · rcases List.mem_filterMap.mp h2 with ⟨r, _, he⟩
          exact file_of_arrayWriteDiagFor _ _ _ _ _ _ he
      · rcases List.mem_filterMap.mp h3 with ⟨r, _, he⟩
        exact file_of_refDiagFor _ _ _ _ _ _ he
  · intro bufferRefs bufferSymbols repoSymbols currentFile lang0 sym rd hlang hmem
      hext hrd hrdext hbuf hrepo hne
    refine ⟨{ file := currentFile, line := sym.line, severity := "ERROR",
              code := "SNIPE_TYPE_MISMATCH",
              message := declMismatchMessage sym.name (trimChars (symTypeRaw rd))
                rd.file_path rd.line (trimChars (symTypeRaw sym)) }, ?_, rfl, rfl, rfl⟩
    simp only [checkTypeMismatch, hlang]
    refine List.mem_append.mpr (Or.inl (List.mem_append.mpr (Or.inl ?_)))
    refine List.mem_flatMap.mpr ⟨sym, hmem, ?_⟩
    simp only [declDiagsFor, hext, Bool.not_true, hrd]
    rw [if_neg (by simp)]
    rw [if_pos (by simp [hbuf, hrepo, hne])]
    exact List.mem_append_left _ (List.mem_singleton.mpr rfl)
  · intro bufferRefs bufferSymbols repoSymbols currentFile lang0 ref rd rt hlang hmem
      hkind hdmn hrd hrdext hrt hrtne hrepone hne
    refine ⟨{ file := currentFile, line := ref.line, severity := "ERROR",
              code := "SNIPE_TYPE_MISMATCH",
              message := refMismatchMessage ref.name (symTypeRaw rd) rd.file_path
                rd.line rt }, ?_, rfl, rfl, rfl⟩
    simp only [checkTypeMismatch, hlang]
    refine List.mem_append.mpr (Or.inr ?_)
    refine List.mem_filterMap.mpr ⟨ref, hmem, ?_⟩
    have hdmn2 : ref.name ∉
        declMismatchNames (repoByName repoSymbols currentFile) bufferSymbols := by
      simpa using hdmn
    rcases hkind with hk | hk <;>
      simp [refDiagFor, hk, hdmn2, hrd, hrdext, hrt, hrtne, hrepone, hne]

/-- A fold step that either keeps the table or prepends a binding for a key
not yet bound preserves every successful lookup. -/
theorem dget_foldl_preserve {α β : Type}
    (step : List (String × α) → β → List (String × α))
    (hstep : ∀ (m : List (String × α)) (s : β),
      step m s = m ∨ ∃ k v, step m s = (k, v) :: m ∧ dget m k = none)
    (l : List β) (n : String) :
    ∀ m : List (String × α), (dget m n).isSome = true →
      dget (l.foldl step m) n = dget m n := by
  induction l with
  | nil => intro m _; rfl
  | cons s rest ih =>
    intro m h
    rw [List.foldl_cons]
    rcases hstep m s with he | ⟨k, v, he, hk⟩
    · rw [he]; exact ih m h
    · have hne : (k == n) = false := by
        by_cases hkn : k = n
        · subst hkn; rw [hk] at h; simp at h
        · simp [hkn]
      have h2 : dget (step m s) n = dget m n := by
        rw [he, dget_cons, hne]; simp
      rw [ih (step m s) (by rw [h2]; exact h), h2]

/-- The canonical (non-extern) repo definition char arr[10] in another
file. -/
def c8Canonical : Symbol :=
  { name := "arr", kind := "array", type := some "char",
    file_path := "lib/arrays.c", line := 2, array_size := some 10 }

/-- The buffer extern declaration extern int arr[10]. -/
def c8Extern10 : Symbol :=
  { name := "arr", kind := "array", type := some "int", file_path := "test.c",
    line := 1, array_size := some 10, is_extern := true }

/-- The buffer extern declaration extern int arr[100], overclaiming the
canonical size 10. -/
def c8Extern100 : Symbol :=
  { name := "arr", kind := "array", type := some "int", file_path := "test.c",
    line := 1, array_size := some 100, is_extern := true }

/-- An access arr[i] in the buffer at line 3. -/
def c8Access (i : Int) : Reference :=
  { name := "arr", kind := "array_access", line := 3, index_value := some i }

/-- C8. An extern array declaration overclaiming the canonical size is
flagged at the declaration, while literal accesses are checked against the
canonical size: whenever the repo stage of the bounds checker's table
resolves a name, the buffer symbol (here the extern) cannot override it
(first conjunct); with extern int arr[10] against canonical char arr[10],
the type mismatch is flagged and arr[9] passes the bounds check (second
and third conjuncts); with extern int arr[100] against canonical size 10,
the overclaim additionally yields a SNIPE_ARRAY_BOUNDS at the declaration
(fourth conjunct) and arr[50] is flagged against size 10, not 100 (fifth
conjunct). -/
theorem claim_C8 :
    (∀ (repoSymbols bufferSymbols : List Symbol) (currentFile n : String),
      (dget (repoSizeMap repoSymbols currentFile) n).isSome = true →
      dget (sizeByName repoSymbols bufferSymbols currentFile) n =
        dget (repoSizeMap repoSymbols currentFile) n)
    ∧ checkTypeMismatch [c8Access 9] [c8Extern10] [c8Canonical] "test.c" =
      [{ file := "test.c", line := 1, severity := "ERROR",
         code := "SNIPE_TYPE_MISMATCH",
         message := "'arr' is declared as char in lib/arrays.c:2 but declared as int here." }]
    ∧ checkArrayBounds [c8Access 9] [c8Extern10] [c8Canonical] "test.c" = []
    ∧ checkTypeMismatch [c8Access 9] [c8Extern100] [c8Canonical] "test.c" =
      [{ file := "test.c", line := 1, severity := "ERROR",
         code := "SNIPE_TYPE_MISMATCH",
         message := "'arr' is declared as char in lib/arrays.c:2 but declared as int here." },
       { file := "test.c", line := 1, severity := "ERROR",
         code := "SNIPE_ARRAY_BOUNDS",
         message := "'arr' declares size 100 but actual size is 10 (in lib/arrays.c:2)." }]
    ∧ checkArrayBounds [c8Access 50] [c8Extern100] [c8Canonical] "test.c" =
      [{ file := "test.c", line := 3, severity := "ERROR",
         code := "SNIPE_ARRAY_BOUNDS",
         message := "Index 50 exceeds declared size 10 for 'arr' (declared in lib/arrays.c:2)." }] := by
  refine ⟨?_, by decide, by decide, by decide, by decide⟩
  intro repoSymbols bufferSymbols currentFile n h
  rw [sizeByName]
  refine dget_foldl_preserve _ ?_ bufferSymbols n _ h
  intro m s
  cases hs : s.array_size with
  | none => left; simp [hs]
  | some sz =>
    by_cases hd : (dget m s.name).isSome = true
    · left; simp [hs, hd]
    · right
      refine ⟨s.name, ⟨sz, pyOr s.file_path currentFile, s.line⟩, by simp [hs, hd], ?_⟩
      cases hv : dget m s.name with
      | none => rfl
      | some v => rw [hv] at hd; simp at hd

/-- The grammar environment with neither language parser available. -/
def emptyGrammarEnv : GrammarEnv := {}

/-- A grammar environment with both parsers available, returning fixed
records, used to show that an unsupported extension alone suppresses
extraction. -/
def sampleGrammarEnv : GrammarEnv :=
  { pySymbols := some (fun _ _ => [{ name := "x", kind := "variable" }]),
    cSymbols := some (fun _ _ => [{ name := "y", kind := "variable" }]),
    pyRefs := some (fun _ _ => [{ name := "x", kind := "read", line := 1 }]),
    cRefs := some (fun _ _ => [{ name := "y", kind := "read", line := 1 }]) }

/-- The empty environment has no symbol parser for any language. -/
theorem getSymbolParser_empty (l : String) :
    getSymbolParser emptyGrammarEnv l = none := by
  rw [getSymbolParser]
  split_ifs <;> rfl

/-- The empty environment has no reference parser for any language. -/
theorem getReferenceParser_empty (l : String) :
    getReferenceParser emptyGrammarEnv l = none := by
  rw [getReferenceParser]
  split_ifs <;> rfl

/-- Symbol extraction under the empty environment yields nothing. -/
theorem extractSymbols_emptyEnv (source filePath : String)
    (language : Option String) :
    extractSymbolsFromSource emptyGrammarEnv source filePath language = [] := by
  rw [extractSymbolsFromSource]
  cases resolveLanguage filePath language with
  | none => rfl
  | some l =>
    show (if l = "python" ∨ l = "c" then
      match getSymbolParser emptyGrammarEnv l with
      | none => []
      | some f => f source filePath
      else []) = []
    rw [getSymbolParser_empty]
    split <;> rfl

/-- Reference extraction under the empty environment yields nothing. -/
theorem extractReferences_emptyEnv (source filePath : String)
    (language : Option String) :
    extractReferencesFromSource emptyGrammarEnv source filePath language = [] := by
  rw [extractReferencesFromSource]
  cases resolveLanguage filePath language with
  | none => rfl
  | some l =>
    show (match getReferenceParser emptyGrammarEnv l with
      | none => []
      | some f => f source filePath) = []
    rw [getReferenceParser_empty]

/-- C9. Extraction degrades to empty output instead of failing: an
unsupported extension makes the buffer parse return zero symbols and zero
references whatever the environment (first conjunct); with no parser
available the buffer parse returns empty for every path and language
(second conjunct); symbol and reference extraction each return the empty
list whenever the resolved language has no parser (third and fourth
conjuncts); and a .txt buffer parses to nothing even with both parsers
available (fifth conjunct). -/
theorem claim_C9 :
    (∀ (env : GrammarEnv) (content filePath : String),
      getLanguageFromPath filePath = none →
      parseUnsavedBuffer env content filePath none = ([], []))
    ∧ (∀ (content filePath : String) (language : Option String),
      parseUnsavedBuffer emptyGrammarEnv content filePath language = ([], []))
    ∧ (∀ (env : GrammarEnv) (source filePath l : String),
      getSymbolParser env l = none →
      extractSymbolsFromSource env source filePath (some l) = [])
    ∧ (∀ (env : GrammarEnv) (source filePath l : String),
      getReferenceParser env l = none →
      extractReferencesFromSource env source filePath (some l) = [])
    ∧ parseUnsavedBuffer sampleGrammarEnv "int x; float y;" "notes.txt" none =
      ([], []) := by
  refine ⟨?_, ?_, ?_, ?_, by decide⟩
  · intro env content filePath h
    simp [parseUnsavedBuffer, h]
  · intro content filePath language
    rw [parseUnsavedBuffer.eq_def]
    cases hx : (match language with
                | some l => some l
                | none => getLanguageFromPath filePath) with
    | none => rfl
    | some l => simp [extractSymbols_emptyEnv, extractReferences_emptyEnv]
  · intro env source filePath l h
    rw [extractSymbolsFromSource]
    show (if l = "python" ∨ l = "c" then
      match getSymbolParser env l with
      | none => []
      | some f => f source filePath else []) = []
    rw [h]
    split <;> rfl
  · intro env source filePath l h
    rw [extractReferencesFromSource]
    show (match getReferenceParser env l with
      | none => []
      | some f => f source filePath) = []
    rw [h]

/-- Every name of the known-name base set the undefined checker builds is
in any of its language-specific extensions. -/
theorem repoName_not_flagged (bufferSymbols repoSymbols : List Symbol)
    (bufferRefs : List Reference) (bigKnown : List String) (x : String)
    (hsub : ∀ y, y ∈ knownNames bufferSymbols repoSymbols bufferRefs → y ∈ bigKnown)
    (h : bigKnown.contains x = false) :
    ∀ s ∈ repoSymbols, s.name ≠ "" → s.name ≠ x := by
  intro s hs hn he
  have hmem : s.name ∈ knownNames bufferSymbols repoSymbols bufferRefs := by
    rw [knownNames]
    refine List.mem_append.mpr (Or.inl (List.mem_append.mpr (Or.inr ?_)))
    exact List.mem_filterMap.mpr ⟨s, hs, by simp [hn]⟩
  have h1 : List.elem x bigKnown = true := by
    rw [← he]; exact List.elem_eq_true_of_mem (hsub s.name hmem)
  have h2 : List.elem x bigKnown = false := h
  rw [h1] at h2
  simp at h2

/-- C10. The known-name set of the undefined checker contains the names of
all repo symbols with no language filter (first conjunct), so every
SNIPE_UNDEFINED_SYMBOL diagnostic stems from a read or call whose name
matches no repo symbol of either language (second conjunct); concretely, a
Python buffer reading a name defined only in a C repo file is not flagged
(third conjunct). -/
theorem claim_C10 :
    (∀ (bufferSymbols repoSymbols : List Symbol) (bufferRefs : List Reference)
      (s : Symbol), s ∈ repoSymbols → s.name ≠ "" →
      s.name ∈ knownNames bufferSymbols repoSymbols bufferRefs)
    ∧ (∀ (bufferRefs : List Reference) (bufferSymbols repoSymbols : List Symbol)
      (currentFile : String) (d : Diagnostic),
      d ∈ checkUndefinedSymbols bufferRefs bufferSymbols repoSymbols currentFile →
      ∃ r ∈ bufferRefs, (r.kind = "read" ∨ r.kind = "call") ∧ d.line = r.line ∧
        ∀ s ∈ repoSymbols, s.name ≠ "" → s.name ≠ r.name)
    ∧ checkUndefinedSymbols [{ name := "balance", kind := "read", line := 2 }] []
        [{ name := "balance", kind := "variable", type := some "float",
           file_path := "lib/core.c", line := 9 }] "app.py" = [] := by
  refine ⟨?_, ?_, by decide⟩
  · intro bufferSymbols repoSymbols bufferRefs s hs hn
    rw [knownNames]
    refine List.mem_append.mpr (Or.inl (List.mem_append.mpr (Or.inr ?_)))
    exact List.mem_filterMap.mpr ⟨s, hs, by simp [hn]⟩
  · intro bufferRefs bufferSymbols repoSymbols currentFile d hd
    simp only [checkUndefinedSymbols] at hd
    split at hd
    · simp at hd
    · split at hd
      · split at hd
        · simp at hd
        · rcases List.mem_append.mp hd with h1 | h1
          · rcases List.mem_filterMap.mp h1 with ⟨r, hr, he⟩
            split at he
            · next hc =>
              simp only [Bool.and_eq_true, beq_iff_eq, Bool.not_eq_true'] at hc
              cases he
              refine ⟨r, hr, Or.inl hc.1, rfl, ?_⟩
              refine repoName_not_flagged bufferSymbols repoSymbols bufferRefs _
                r.name ?_ hc.2
              intro y hy
              exact List.mem_append_left _ (List.mem_append_left _ hy)
            · simp at he
          · rcases List.mem_filterMap.mp h1 with ⟨r, hr, he⟩
            split at he
            · next hc =>
              simp only [Bool.and_eq_true, beq_iff_eq, Bool.not_eq_true'] at hc
              cases he
              refine ⟨r, hr, Or.inr hc.1.1, rfl, ?_⟩
              refine repoName_not_flagged bufferSymbols repoSymbols bufferRefs _
                r.name ?_ hc.2
              intro y hy
              exact List.mem_append_left _ (List.mem_append_left _ hy)
            · simp at he
      · split at hd
        · rcases List.mem_filterMap.mp hd with ⟨r, hr, he⟩
          split at he
          · next hc =>
            simp only [Bool.and_eq_true, beq_iff_eq, Bool.not_eq_true'] at hc
            cases he
            refine ⟨r, hr, Or.inr hc.1, rfl, ?_⟩
            refine repoName_not_flagged bufferSymbols repoSymbols bufferRefs _
              r.name ?_ hc.2
            intro y hy
            exact List.mem_append_left _ hy
          · simp at he
        · simp at hd

end Snipe
